import Mathlib

/-!
Verification of the order-fulfillment orchestrator of the vedayura backend.

The definitions below are a shallow embedding of the JavaScript controllers
in `src/controllers/order.enhanced.controller.js` (checkout, payment
verification, cancellation), `src/controllers/category.controller.js`
(refund workflow, shipping webhook) and the Shiprocket client
(`checkServiceability`).  Database tables become lists of records, the
Prisma calls become list lookups and updates, and every external call
(Razorpay, Shiprocket) is passed in explicitly as an `Except`-valued input,
mirroring the `await`ed results of the JS code.  Monetary values are
rationals, ids are naturals.
-/

namespace Vedayura

/-- Order lifecycle status, the `OrderStatus` Prisma enum. -/
inductive OrderStatus
  | PENDING | PAID | SHIPPED | DELIVERED | CANCELLED
deriving DecidableEq, Repr

/-- Payment status, the `PaymentStatus` Prisma enum. -/
inductive PaymentStatus
  | PENDING | SUCCESS | FAILED | REFUNDED | PARTIALLY_REFUNDED
deriving DecidableEq, Repr

/-- Shipment status, the `ShipmentStatus` Prisma enum. -/
inductive ShipmentStatus
  | PENDING | PROCESSING | DISPATCHED | IN_TRANSIT | OUT_FOR_DELIVERY
  | DELIVERED | CANCELLED | RTO_INITIATED | RTO_DELIVERED | FAILED
deriving DecidableEq, Repr

/-- Refund status, the `RefundStatus` Prisma enum. -/
inductive RefundStatus
  | REQUESTED | PENDING_ADMIN_APPROVAL | APPROVED | REJECTED
  | PROCESSING | COMPLETED | FAILED
deriving DecidableEq, Repr

/-- A row of the `products` table (the fields checkout reads). -/
structure Product where
  id : Nat
  name : String
  isActive : Bool
  stockQuantity : Int
  discountedPrice : Rat
deriving DecidableEq, Repr

/-- A row of the `cart_items` table. -/
structure CartItem where
  productId : Nat
  quantity : Nat
deriving DecidableEq, Repr

/-- A row of the `carts` table together with its included items. -/
structure Cart where
  id : Nat
  userId : Nat
  cartItems : List CartItem
deriving DecidableEq, Repr

/-- A row of the `addresses` table (the fields checkout reads). -/
structure Address where
  id : Nat
  userId : Nat
  pincode : String
deriving DecidableEq, Repr

/-- A row of the `orders` table (the fields the orchestrator touches). -/
structure Order where
  id : Nat
  userId : Nat
  subtotalAmount : Rat
  shippingCost : Rat
  totalAmount : Rat
  status : OrderStatus
deriving DecidableEq, Repr

/-- A row of the `order_items` table. -/
structure OrderItemRec where
  orderId : Nat
  productId : Nat
  quantity : Nat
  priceAtPurchase : Rat
deriving DecidableEq, Repr

/-- A row of the `payments` table. -/
structure Payment where
  id : Nat
  orderId : Nat
  razorpayOrderId : String
  razorpayPaymentId : Option String
  razorpaySignature : Option String
  idempotencyKey : String
  amount : Rat
  amountRefunded : Rat
  status : PaymentStatus
deriving DecidableEq, Repr

/-- An entry of the JSON `statusHistory` array of a shipping-details row. -/
structure HistoryEntry where
  status : String
  timestamp : String
  courierName : Option String
  awbCode : Option String
deriving DecidableEq, Repr

/-- A row of the `shipping_details` table. -/
structure ShippingDetail where
  id : Nat
  orderId : Nat
  shiprocketOrderId : Option String
  shiprocketShipmentId : Option String
  awbCode : Option String
  courierName : Option String
  trackingUrl : Option String
  currentStatus : ShipmentStatus
  statusHistory : List HistoryEntry
deriving DecidableEq, Repr

/-- The persistent store: each Prisma table as a list of rows. -/
structure St where
  orders : List Order
  orderItems : List OrderItemRec
  payments : List Payment
  products : List Product
  carts : List Cart
  addresses : List Address
  shippingDetails : List ShippingDetail
deriving DecidableEq, Repr

/-- `prisma.payment.findUnique (where idempotencyKey)`. -/
def findPaymentByKey (s : St) (k : String) : Option Payment :=
  s.payments.find? (fun p => p.idempotencyKey == k)

/-- `prisma.order.findUnique (where id)`. -/
def findOrderById (s : St) (i : Nat) : Option Order :=
  s.orders.find? (fun o => o.id == i)

/-- The `payment` relation included with an order. -/
def findPaymentByOrder (s : St) (oid : Nat) : Option Payment :=
  s.payments.find? (fun p => p.orderId == oid)

/-- `prisma.address.findUnique (where id)`. -/
def findAddressById (s : St) (i : Nat) : Option Address :=
  s.addresses.find? (fun a => a.id == i)

/-- `prisma.cart.findUnique (where userId)`. -/
def findCartByUser (s : St) (uid : Nat) : Option Cart :=
  s.carts.find? (fun c => c.userId == uid)

/-- `prisma.shippingDetails` lookup by owning order. -/
def findShippingByOrder (s : St) (oid : Nat) : Option ShippingDetail :=
  s.shippingDetails.find? (fun d => d.orderId == oid)

/-- `prisma.payment.update (where id)`: apply `f` to the row with this id. -/
def updatePaymentById (l : List Payment) (i : Nat) (f : Payment → Payment) :
    List Payment :=
  l.map (fun p => if p.id == i then f p else p)

/-- `prisma.order.update (where id)`. -/
def updateOrderById (l : List Order) (i : Nat) (f : Order → Order) :
    List Order :=
  l.map (fun o => if o.id == i then f o else o)

/-- `prisma.shippingDetails.update (where orderId)`. -/
def updateShippingByOrder (l : List ShippingDetail) (oid : Nat)
    (f : ShippingDetail → ShippingDetail) : List ShippingDetail :=
  l.map (fun d => if d.orderId == oid then f d else d)

/-- The per-product stock decrement loop of checkout:
`prisma.product.update (stockQuantity decrement)` for every cart item. -/
def decProducts (prods : List Product) : List CartItem → List Product
  | [] => prods
  | it :: rest =>
      decProducts
        (prods.map (fun p =>
          if p.id == it.productId then
            { p with stockQuantity := p.stockQuantity - (it.quantity : Int) }
          else p))
        rest

/-- The stock restoration loop of `cancelOrder`:
`prisma.product.update (stockQuantity increment)` for each order item. -/
def incProducts (prods : List Product) : List OrderItemRec → List Product
  | [] => prods
  | it :: rest =>
      incProducts
        (prods.map (fun p =>
          if p.id == it.productId then
            { p with stockQuantity := p.stockQuantity + (it.quantity : Int) }
          else p))
        rest

/-- Reason the per-item loop of checkout aborts with a 400. -/
inductive ScanErr
  | missingProduct
  | inactive (name : String)
  | insufficientStock (name : String)
deriving DecidableEq, Repr

/-- The `for (const item of cart.cartItems)` loop of `createOrder`:
rejects an inactive product or short stock (first offender wins) and
otherwise accumulates subtotal, total weight (0.5 kg per unit) and the
order-item snapshots. -/
def scanItems (prods : List Product) :
    List CartItem → Except ScanErr (Rat × Rat × List (Nat × Nat × Rat))
  | [] => .ok (0, 0, [])
  | it :: rest =>
      match prods.find? (fun p => p.id == it.productId) with
      | none => .error .missingProduct
      | some p =>
          if !p.isActive then .error (.inactive p.name)
          else if (it.quantity : Int) > p.stockQuantity then
            .error (.insufficientStock p.name)
          else
            match scanItems prods rest with
            | .error e => .error e
            | .ok (sub, w, os) =>
                .ok (p.discountedPrice * (it.quantity : Rat) + sub,
                     (1 / 2 : Rat) * (it.quantity : Rat) + w,
                     (it.productId, it.quantity, p.discountedPrice) :: os)

/-- Serviceability result as returned by the Shiprocket adapter. -/
structure Serviceability where
  available : Bool
  shippingCost : Rat
  courierName : Option String
deriving DecidableEq, Repr

/-- The checkout request body plus the authenticated user. -/
structure CreateOrderReq where
  userId : Nat
  addressId : Option Nat
  idempotencyKey : Option String
deriving DecidableEq, Repr

/-- The environment of one `createOrder` run: clock and uuid used for a
generated idempotency key, the result of the serviceability call, the
result of the Razorpay order creation, and the fresh row ids the store
assigns. -/
structure CreateOrderExt where
  nowMs : Nat
  uuid : String
  serviceability : Except Unit Serviceability
  razorpay : Except Unit String
  freshOrderId : Nat
  freshPaymentId : Nat
deriving Repr

/-- The generated idempotency key for key-less checkout requests:
the JS template literal userId_Date.now()_uuidv4(). -/
def genKey (userId nowMs : Nat) (uuid : String) : String :=
  toString userId ++ "_" ++ toString nowMs ++ "_" ++ uuid

/-- The JSON body `createOrder` answers with (the fields the claims read). -/
structure CreateOrderResp where
  status : Nat
  orderId : Option Nat
  razorpayOrderId : Option String
  subtotal : Option Rat
  shippingCost : Option Rat
  totalAmount : Option Rat
deriving DecidableEq, Repr

/-- Result of one `createOrder` run: the HTTP response, the store after the
run, and whether a remote Razorpay payment intent was created. -/
structure CreateOrderOut where
  resp : CreateOrderResp
  state : St
  gatewayCalled : Bool
deriving DecidableEq, Repr

/-- JavaScript `a || b` on an optional string with a plain-string fallback:
an absent or EMPTY provided string falls through to the fallback, exactly
as the falsy check of providedKey || generatedKey does. -/
def jsOrKey (a : Option String) (b : String) : String :=
  match a with
  | some x => if x = "" then b else x
  | none => b

/-- Shallow embedding of `createOrder` of
`order.enhanced.controller.js` (checkout). -/
def createOrder (s : St) (req : CreateOrderReq) (ext : CreateOrderExt) :
    CreateOrderOut :=
  match req.addressId with
  | none => ⟨⟨400, none, none, none, none, none⟩, s, false⟩
  | some addressId =>
    let key := jsOrKey req.idempotencyKey (genKey req.userId ext.nowMs ext.uuid)
    match findPaymentByKey s key with
    | some ep =>
        match findOrderById s ep.orderId with
        | some o =>
            ⟨⟨200, some o.id, some ep.razorpayOrderId, some o.subtotalAmount,
              some o.shippingCost, some o.totalAmount⟩, s, false⟩
        | none => ⟨⟨500, none, none, none, none, none⟩, s, false⟩
    | none =>
      match findAddressById s addressId with
      | none => ⟨⟨404, none, none, none, none, none⟩, s, false⟩
      | some addr =>
        if addr.userId ≠ req.userId then
          ⟨⟨404, none, none, none, none, none⟩, s, false⟩
        else
          match findCartByUser s req.userId with
          | none => ⟨⟨400, none, none, none, none, none⟩, s, false⟩
          | some cart =>
            if cart.cartItems.isEmpty then
              ⟨⟨400, none, none, none, none, none⟩, s, false⟩
            else
              match scanItems s.products cart.cartItems with
              | .error _ => ⟨⟨400, none, none, none, none, none⟩, s, false⟩
              | .ok (subtotal, _weight, items) =>
                let quote : Option Rat :=
                  match ext.serviceability with
                  | .ok sv => if sv.available then some sv.shippingCost else none
                  | .error _ => some 50
                match quote with
                | none => ⟨⟨400, none, none, none, none, none⟩, s, false⟩
                | some shippingCost =>
                  let totalAmount := subtotal + shippingCost
                  match ext.razorpay with
                  | .error _ =>
                      ⟨⟨500, none, none, none, none, none⟩, s, true⟩
                  | .ok rzpId =>
                    let newOrder : Order :=
                      ⟨ext.freshOrderId, req.userId, subtotal, shippingCost,
                       totalAmount, .PENDING⟩
                    let newPayment : Payment :=
                      ⟨ext.freshPaymentId, ext.freshOrderId, rzpId, none, none,
                       key, totalAmount, 0, .PENDING⟩
                    let newItems :=
                      items.map (fun x =>
                        OrderItemRec.mk ext.freshOrderId x.1 x.2.1 x.2.2)
                    let s' : St :=
                      { s with
                        orders := newOrder :: s.orders
                        payments := newPayment :: s.payments
                        orderItems := newItems ++ s.orderItems
                        products := decProducts s.products cart.cartItems
                        carts := s.carts.map (fun c =>
                          if c.id == cart.id then { c with cartItems := [] }
                          else c) }
                    ⟨⟨201, some ext.freshOrderId, some rzpId, some subtotal,
                      some shippingCost, some totalAmount⟩, s', true⟩

/-- The verify-payment request body plus the authenticated user. -/
structure VerifyReq where
  userId : Nat
  orderId : Nat
  razorpayPaymentId : String
  razorpayOrderId : String
  razorpaySignature : String
deriving DecidableEq, Repr

/-- Result of `shiprocketClient.createOrder`. -/
structure SROrderRes where
  success : Bool
  orderId : Nat
  shipmentId : Nat
deriving DecidableEq, Repr

/-- One courier option (`courier_company_id`, name, rate, etd). -/
structure Courier where
  id : Nat
  name : String
  rate : Rat
  etd : String
deriving DecidableEq, Repr

/-- Result of `shiprocketClient.generateAWB`. -/
structure AwbRes where
  awbCode : String
  courierName : String
deriving DecidableEq, Repr

/-- The user row read for the shipment label. -/
structure UserRec where
  name : String
  email : String
  phone : Option String
deriving DecidableEq, Repr

/-- The environment of the shipment-booking chain run during verify-payment:
the user lookup and the results of the four Shiprocket calls, each of which
may throw; `couriers` is the `getAvailableCouriers` result, which is `[]`
(not a throw) when the courier listing fails. -/
structure BookingExt where
  user : Option UserRec
  createRes : Except Unit SROrderRes
  couriers : List Courier
  awbRes : Except Unit AwbRes
  pickupRes : Except Unit Unit
  freshShippingId : Nat

/-- JavaScript `a || b` on an optional string: an absent or empty string
falls through to the second operand. -/
def jsOrStr (a : Option String) (b : Option String) : Option String :=
  match a with
  | some x => if x = "" then b else some x
  | none => b

/-- The try-block of the Shiprocket booking chain inside `verifyPayment`:
create order, list couriers, pick the first, assign the waybill, request
pickup, and build the shipping-details row.  `none` means the chain ended
without persisting a row — either a step threw (caught by the surrounding
catch) or Shiprocket reported failure. -/
def bookShipment (ext : BookingExt) (orderId : Nat) : Option ShippingDetail :=
  match ext.user with
  | none => none
  | some _ =>
    match ext.createRes with
    | .error _ => none
    | .ok sr =>
      if sr.success then
        match ext.couriers with
        | [] =>
            some ⟨ext.freshShippingId, orderId, some (toString sr.orderId),
              some (toString sr.shipmentId), none, none, none,
              .PROCESSING, []⟩
        | sc :: _ =>
          match ext.awbRes with
          | .error _ => none
          | .ok awb =>
            match ext.pickupRes with
            | .error _ => none
            | .ok _ =>
                some ⟨ext.freshShippingId, orderId, some (toString sr.orderId),
                  some (toString sr.shipmentId),
                  jsOrStr (some awb.awbCode) none,
                  jsOrStr (some awb.courierName) (jsOrStr (some sc.name) none),
                  none, .PROCESSING, []⟩
      else none

/-- A primitive database write issued by the valid-signature path of
`verifyPayment`.  The code issues these as two separate, non-transactional
`prisma.*.update` calls. -/
inductive DbWrite
  | paymentSuccess (paymentId : Nat) (rpPaymentId rpSignature : String)
  | orderPaid (orderId : Nat)
deriving DecidableEq, Repr

/-- Apply one primitive write to the store. -/
def applyWrite (s : St) : DbWrite → St
  | .paymentSuccess pid rpPay rpSig =>
      { s with payments := updatePaymentById s.payments pid (fun p =>
          { p with razorpayPaymentId := some rpPay,
                   razorpaySignature := some rpSig,
                   status := .SUCCESS }) }
  | .orderPaid oid =>
      { s with orders := updateOrderById s.orders oid (fun o =>
          { o with status := .PAID }) }

/-- The ordered write sequence of the valid-signature path of
`verifyPayment`: first the payment row is flipped to SUCCESS, then —
in a separate call — the order row is flipped to PAID. -/
def verifySuccessWrites (paymentId orderId : Nat) (rpPay rpSig : String) :
    List DbWrite :=
  [.paymentSuccess paymentId rpPay rpSig, .orderPaid orderId]

/-- Result of one `verifyPayment` run. -/
structure VerifyOut where
  status : Nat
  state : St

/-- Shallow embedding of `verifyPayment` of
`order.enhanced.controller.js`.  `hmac` is the HMAC-SHA256 used for the
signature check, applied to the shared secret and the message
externalOrderId|externalPaymentId. -/
def verifyPayment (hmac : String → String → String) (secret : String)
    (s : St) (req : VerifyReq) (ext : BookingExt) : VerifyOut :=
  if req.razorpayPaymentId = "" ∨ req.razorpayOrderId = "" ∨
      req.razorpaySignature = "" then ⟨400, s⟩
  else
    match findOrderById s req.orderId with
    | none => ⟨404, s⟩
    | some o =>
      if o.userId ≠ req.userId then ⟨404, s⟩
      else
        match findPaymentByOrder s req.orderId with
        | none => ⟨500, s⟩
        | some p =>
          if p.status = .SUCCESS then ⟨200, s⟩
          else
            let generated :=
              hmac secret (req.razorpayOrderId ++ "|" ++ req.razorpayPaymentId)
            if generated ≠ req.razorpaySignature then
              ⟨400, { s with payments := (updatePaymentById s.payments p.id
                  (fun q => { q with
                    razorpayPaymentId := some req.razorpayPaymentId,
                    status := .FAILED })) }⟩
            else
              let s2 := (verifySuccessWrites p.id req.orderId
                req.razorpayPaymentId req.razorpaySignature).foldl applyWrite s
              match bookShipment ext req.orderId with
              | none => ⟨200, s2⟩
              | some sd =>
                  ⟨200, { s2 with shippingDetails := sd :: s2.shippingDetails }⟩

/-- The status of the payment row with the given id. -/
def paymentStatusById (s : St) (i : Nat) : Option PaymentStatus :=
  (s.payments.find? (fun p => p.id == i)).map Payment.status

/-- The status of the order row with the given id. -/
def orderStatusById (s : St) (i : Nat) : Option OrderStatus :=
  (findOrderById s i).map Order.status

/-- A concrete HMAC stand-in used by the concrete scenarios: it tags the
message with the secret, so a third party without the secret cannot guess
it. -/
def hmacDemo : String → String → String := fun secret msg =>
  secret ++ ":" ++ msg

/-- The signature `hmacDemo` produces for the demo verify-payment call. -/
def demoSig : String := hmacDemo "sec" "rzp_1|pay_1"

/-- A verify-payment request for demo order 10 carrying a forged
signature. -/
def demoVerifyReqForged : VerifyReq := ⟨1, 10, "pay_1", "rzp_1", "forged"⟩

/-- A verify-payment request for demo order 10 carrying the valid
signature. -/
def demoVerifyReqValid : VerifyReq := ⟨1, 10, "pay_1", "rzp_1", demoSig⟩

/-- A booking environment in which every Shiprocket step succeeds. -/
def demoBookExt : BookingExt :=
  ⟨some ⟨"Asha Rao", "asha@example.com", some "9990001111"⟩,
   .ok ⟨true, 77, 88⟩, [⟨5, "BlueDart", 60, "2"⟩],
   .ok ⟨"AWB1", "BlueDart"⟩, .ok (), 30⟩

/-- A booking environment in which the Shiprocket order creation throws. -/
def demoBookFailExt : BookingExt :=
  ⟨some ⟨"Asha Rao", "asha@example.com", some "9990001111"⟩,
   .error (), [], .error (), .error (), 30⟩

/-- The environment of one `cancelOrder` run: the result of the best-effort
remote `cancelShipment` call. -/
structure CancelExt where
  cancelShipmentRes : Except Unit Unit

/-- Shallow embedding of `cancelOrder` of
`order.enhanced.controller.js`: ownership check, guard against cancelling
CANCELLED / DELIVERED / SHIPPED orders, best-effort Shiprocket shipment
cancellation, stock restoration for every order item, and the flip to
CANCELLED. -/
def cancelOrder (s : St) (userId orderId : Nat) (ext : CancelExt) :
    Nat × St :=
  match findOrderById s orderId with
  | none => (404, s)
  | some o =>
    if o.userId ≠ userId then (403, s)
    else if o.status = .CANCELLED then (400, s)
    else if o.status = .DELIVERED then (400, s)
    else if o.status = .SHIPPED then (400, s)
    else
      let s1 :=
        match findShippingByOrder s orderId with
        | some sd =>
          match sd.awbCode with
          | some _ =>
            match ext.cancelShipmentRes with
            | .ok _ =>
                { s with shippingDetails :=
                    (updateShippingByOrder s.shippingDetails orderId
                      (fun d => { d with currentStatus := .CANCELLED })) }
            | .error _ => s
          | none => s
        | none => s
      let s2 := { s1 with products :=
        (incProducts s1.products
          (s.orderItems.filter (fun it => it.orderId == orderId))) }
      (200, { s2 with orders :=
        (updateOrderById s2.orders orderId
          (fun q => { q with status := .CANCELLED })) })

/-- A concrete store holding a PAID order with 2 reserved units of a
product whose stock is 8. -/
def demoCancelState : St :=
  { orders := [⟨10, 1, 1400, 50, 1450, .PAID⟩],
    orderItems := [⟨10, 1, 2, 700⟩],
    payments := [⟨20, 10, "rzp_1", some "pay_1", some demoSig, "1_0_u0",
      1450, 0, .SUCCESS⟩],
    products := [⟨1, "Ashwagandha", true, 8, 700⟩],
    carts := [⟨1, 1, []⟩],
    addresses := [⟨1, 1, "400001"⟩],
    shippingDetails := [] }

/-- The same store with the order already SHIPPED. -/
def demoShippedState : St :=
  { demoCancelState with orders := [⟨10, 1, 1400, 50, 1450, .SHIPPED⟩] }

/-- The courier-selection reduce of `ShiprocketClient.checkServiceability`:
`couriers.reduce((prev, curr) => prev.rate < curr.rate ? prev : curr)`,
started on the first courier of a non-empty list. -/
def cheapestCourier (c : Courier) (rest : List Courier) : Courier :=
  rest.foldl (fun prev curr => if prev.rate < curr.rate then prev else curr) c

/-- Follows the claim's words, for comparison with `cheapestCourier`: the
minimum-rate option with ties broken by provider-returned order, first
wins. -/
def specFirstMinCourier (c : Courier) (rest : List Courier) : Courier :=
  rest.foldl (fun prev curr => if curr.rate < prev.rate then curr else prev) c

/-- The serviceability payload of the Shiprocket API:
`response.data.status` and `available_courier_companies`. -/
structure SvcResponse where
  status : Nat
  couriers : List Courier
deriving DecidableEq, Repr

/-- Shallow embedding of `ShiprocketClient.checkServiceability`: on a
thrown request it throws; on status 200 with a non-empty courier list it
reports available with the reduce-selected cheapest courier; otherwise it
reports unavailable. -/
def checkServiceability (resp : Except Unit SvcResponse) :
    Except Unit Serviceability :=
  match resp with
  | .error _ => .error ()
  | .ok r =>
    if r.status = 200 then
      match r.couriers with
      | c :: rest =>
          .ok ⟨true, (cheapestCourier c rest).rate,
               some (cheapestCourier c rest).name⟩
      | [] => .ok ⟨false, 0, none⟩
    else .ok ⟨false, 0, none⟩

/-- The `statusMap` object lookup of `handleShiprocketWebhook`
(provider free-text status to `ShipmentStatus`). -/
def statusMapLookup (cs : String) : Option ShipmentStatus :=
  if cs = "New" then some .PENDING
  else if cs = "Pickup Scheduled" then some .PROCESSING
  else if cs = "Picked Up" then some .DISPATCHED
  else if cs = "Shipped" then some .DISPATCHED
  else if cs = "In Transit" then some .IN_TRANSIT
  else if cs = "Out For Delivery" then some .OUT_FOR_DELIVERY
  else if cs = "Delivered" then some .DELIVERED
  else if cs = "Cancelled" then some .CANCELLED
  else if cs = "RTO Initiated" then some .RTO_INITIATED
  else if cs = "RTO Delivered" then some .RTO_DELIVERED
  else if cs = "Lost" then some .FAILED
  else if cs = "Damaged" then some .FAILED
  else none

/-- The JS fallback statusMap[current_status] || IN_TRANSIT. -/
def mapShiprocketStatus (cs : String) : ShipmentStatus :=
  (statusMapLookup cs).getD .IN_TRANSIT

/-- The `orderStatusMap` of the webhook handler (derived order status;
absent entries mean the order is left alone). -/
def orderStatusMap : ShipmentStatus → Option OrderStatus
  | .PROCESSING => some .PAID
  | .DISPATCHED => some .SHIPPED
  | .IN_TRANSIT => some .SHIPPED
  | .OUT_FOR_DELIVERY => some .SHIPPED
  | .DELIVERED => some .DELIVERED
  | .CANCELLED => some .CANCELLED
  | _ => none

/-- The fields of the Shiprocket webhook body the handler reads, plus the
wall-clock timestamp used for the history entry. -/
structure WebhookIn where
  current_status : String
  courier_name : Option String
  awb_code : Option String
  tracking_url : Option String
  nowIso : String
deriving DecidableEq, Repr

/-- Core of `handleShiprocketWebhook` once the shipping-details row and its
order are located: map the provider status (unknown text defaults to
IN_TRANSIT), append exactly one timestamped history entry, refresh the
courier/awb/tracking fields, and write the order status only when the
second mapping defines one that differs from the current status. -/
def processShipmentWebhook (sd : ShippingDetail) (ord : Order)
    (w : WebhookIn) : ShippingDetail × Order :=
  let mapped := mapShiprocketStatus w.current_status
  let sd' := { sd with
    currentStatus := mapped,
    courierName := jsOrStr w.courier_name sd.courierName,
    awbCode := jsOrStr w.awb_code sd.awbCode,
    trackingUrl := jsOrStr w.tracking_url sd.trackingUrl,
    statusHistory := sd.statusHistory
      ++ [⟨w.current_status, w.nowIso, w.courier_name, w.awb_code⟩] }
  let ord' :=
    match orderStatusMap mapped with
    | some ns => if ord.status ≠ ns then { ord with status := ns } else ord
    | none => ord
  (sd', ord')

/-- The payment fields the refund workflow reads and writes. -/
structure RPayment where
  amount : Rat
  amountRefunded : Rat
  status : PaymentStatus
  razorpayPaymentId : Option String
deriving DecidableEq, Repr

/-- A refund row of one order. -/
structure RRefund where
  id : Nat
  amount : Rat
  status : RefundStatus
  razorpayRefundId : Option Nat
deriving DecidableEq, Repr

/-- The refund-workflow state of a single paid order owned by the caller:
its payment and its refund rows. -/
structure RSt where
  payment : RPayment
  refunds : List RRefund
deriving DecidableEq, Repr

/-- The non-terminal refund statuses of the double-request guard in
`requestRefund`. -/
def isActiveRefund : RefundStatus → Bool
  | .REQUESTED | .PENDING_ADMIN_APPROVAL | .APPROVED | .PROCESSING => true
  | _ => false

/-- `prisma.refund.update (where id)`. -/
def updateRefundById (l : List RRefund) (i : Nat) (f : RRefund → RRefund) :
    List RRefund :=
  l.map (fun r => if r.id == i then f r else r)

/-- Shallow embedding of `requestRefund` of the refund controller, for one
order owned by the caller: requires a SUCCESS payment, rejects when any
refund is in a non-terminal status or nothing refundable remains, and
otherwise creates a REQUESTED refund over the full remaining amount. -/
def requestRefund (s : RSt) (newId : Nat) : Nat × RSt :=
  if s.payment.status ≠ .SUCCESS then (400, s)
  else
    match s.refunds.find? (fun r => isActiveRefund r.status) with
    | some _ => (400, s)
    | none =>
      if s.payment.amount - s.payment.amountRefunded ≤ 0 then (400, s)
      else
        (201, { s with refunds :=
          ⟨newId, s.payment.amount - s.payment.amountRefunded,
           .REQUESTED, none⟩ :: s.refunds })

/-- Shallow embedding of `approveRefund`: only a REQUESTED refund with a
recorded external payment id can be approved; on gateway failure the refund
turns FAILED and the payment is untouched; on gateway success the refund
turns PROCESSING with the external refund id and — in the same transaction
— amountRefunded is incremented and the payment status becomes REFUNDED
exactly when the increment reaches the original amount. -/
def approveRefund (s : RSt) (i : Nat) (gw : Except Unit Nat) : Nat × RSt :=
  match s.refunds.find? (fun r => r.id == i) with
  | none => (404, s)
  | some r =>
    if r.status ≠ .REQUESTED then (400, s)
    else if s.payment.razorpayPaymentId = none then (400, s)
    else
      match gw with
      | .error _ =>
          (500, { s with refunds := (updateRefundById s.refunds i
              (fun q => { q with status := .FAILED })) })
      | .ok rzid =>
          (200,
           { payment :=
               { s.payment with
                 amountRefunded := s.payment.amountRefunded + r.amount,
                 status :=
                   if s.payment.amount = r.amount + s.payment.amountRefunded
                   then .REFUNDED else .PARTIALLY_REFUNDED },
             refunds := (updateRefundById s.refunds i
               (fun q => { q with status := .PROCESSING,
                                  razorpayRefundId := some rzid })) })

/-- Shallow embedding of `rejectRefund`: requires a non-empty admin note and
a REQUESTED refund. -/
def rejectRefund (s : RSt) (i : Nat) (adminNote : String) : Nat × RSt :=
  if adminNote = "" then (400, s)
  else
    match s.refunds.find? (fun r => r.id == i) with
    | none => (404, s)
    | some r =>
      if r.status ≠ .REQUESTED then (400, s)
      else (200, { s with refunds := (updateRefundById s.refunds i
          (fun q => { q with status := .REJECTED })) })

/-- The refund.created branch of the Razorpay webhook:
`updateMany (where razorpayRefundId)` to PROCESSING. -/
def webhookRefundCreated (s : RSt) (rzid : Nat) : RSt :=
  { s with refunds := s.refunds.map (fun r =>
      if r.razorpayRefundId == some rzid then { r with status := .PROCESSING }
      else r) }

/-- The refund.processed branch of the Razorpay webhook:
`updateMany (where razorpayRefundId)` to COMPLETED. -/
def webhookRefundProcessed (s : RSt) (rzid : Nat) : RSt :=
  { s with refunds := s.refunds.map (fun r =>
      if r.razorpayRefundId == some rzid then { r with status := .COMPLETED }
      else r) }

/-- The `checkRefundStatus` poll: when the gateway reports processed and
the local refund (which must carry an external refund id) is not COMPLETED
yet, flip it to COMPLETED. -/
def pollRefundStatus (s : RSt) (i : Nat) (remoteProcessed : Bool) : RSt :=
  match s.refunds.find? (fun r => r.id == i) with
  | none => s
  | some r =>
    match r.razorpayRefundId with
    | none => s
    | some _ =>
      if remoteProcessed ∧ r.status ≠ .COMPLETED then
        { s with refunds := (updateRefundById s.refunds i
            (fun q => { q with status := .COMPLETED })) }
      else s

/-- One operation of the refund workflow. -/
inductive ROp
  | request (newId : Nat)
  | approve (i : Nat) (gw : Except Unit Nat)
  | reject (i : Nat) (adminNote : String)
  | created (rzid : Nat)
  | processed (rzid : Nat)
  | poll (i : Nat) (remoteProcessed : Bool)

/-- The state after one operation (HTTP responses discarded). -/
def rstep (s : RSt) : ROp → RSt
  | .request n => (requestRefund s n).2
  | .approve i gw => (approveRefund s i gw).2
  | .reject i note => (rejectRefund s i note).2
  | .created rzid => webhookRefundCreated s rzid
  | .processed rzid => webhookRefundProcessed s rzid
  | .poll i b => pollRefundStatus s i b

/-- The state after a sequence of refund-workflow operations. -/
def runOps (s : RSt) (ops : List ROp) : RSt := ops.foldl rstep s

/-- The refund-workflow invariant: the refunded amount never exceeds the
payment amount, every REQUESTED refund snapshots exactly the positive
remaining refundable amount, and at most one refund is REQUESTED. -/
def goodRSt (s : RSt) : Prop :=
  s.payment.amountRefunded ≤ s.payment.amount ∧
  (∀ r ∈ s.refunds, r.status = .REQUESTED →
    r.amount = s.payment.amount - s.payment.amountRefunded ∧
    0 < r.amount) ∧
  (s.refunds.filter (fun r => r.status == .REQUESTED)).length ≤ 1

/-- A concrete refund-workflow state: a successfully paid 1450 order with
nothing refunded yet. -/
def demoRSt : RSt := ⟨⟨1450, 0, .SUCCESS, some "pay_1"⟩, []⟩

/-- A concrete catalogue product used by the concrete scenarios below:
active, stock 5, discounted price 700. -/
def demoProduct : Product := ⟨1, "Ashwagandha", true, 5, 700⟩

/-- A concrete store: user 1 owns address 1 and a cart holding two units of
the demo product. -/
def demoState : St :=
  { orders := [], orderItems := [], payments := [],
    products := [demoProduct],
    carts := [⟨1, 1, [⟨1, 2⟩]⟩],
    addresses := [⟨1, 1, "400001"⟩],
    shippingDetails := [] }

/-- Environment of the first demo checkout run: serviceable route at cost
50, Razorpay succeeds. -/
def demoExt : CreateOrderExt :=
  ⟨0, "u0", .ok ⟨true, 50, some "BlueDart"⟩, .ok "rzp_1", 10, 20⟩

/-- Environment of the second demo checkout run (later clock, other uuid,
other fresh ids). -/
def demoExt2 : CreateOrderExt :=
  ⟨1, "u1", .ok ⟨true, 50, some "BlueDart"⟩, .ok "rzp_2", 11, 21⟩

/-- Demo checkout request carrying a client-supplied idempotency key. -/
def demoReq : CreateOrderReq := ⟨1, some 1, some "k1"⟩

/-- Demo checkout environment whose serviceability lookup reports the route
unavailable. -/
def demoExtUnavailable : CreateOrderExt :=
  ⟨0, "u2", .ok ⟨false, 0, none⟩, .ok "rzp_3", 30, 40⟩

/-- Demo checkout environment whose serviceability lookup throws. -/
def demoExtQuoteError : CreateOrderExt :=
  ⟨0, "u3", .error (), .ok "rzp_4", 31, 41⟩

/-- Demo keyless checkout request (no client idempotency key). -/
def demoReqNoKey : CreateOrderReq := ⟨1, some 1, none⟩

/-- The demo store after the first successful keyless checkout: one PENDING
order, its payment under the generated key, stock 5 decremented to 3, cart
emptied. -/
def demoStateAfter : St :=
  { orders := [⟨10, 1, 1400, 50, 1450, .PENDING⟩],
    orderItems := [⟨10, 1, 2, 700⟩],
    payments := [⟨20, 10, "rzp_1", none, none, "1_0_u0", 1450, 0, .PENDING⟩],
    products := [⟨1, "Ashwagandha", true, 3, 700⟩],
    carts := [⟨1, 1, []⟩],
    addresses := [⟨1, 1, "400001"⟩],
    shippingDetails := [] }

/-- C1: for a valid checkout input with a client-supplied idempotency key,
the first `createOrder` answers 201; invoking `createOrder` again with the
same key answers 200 (not 201) with the same order id, creates no new
Razorpay payment intent, and leaves the store — stock included —
completely unchanged. -/
theorem checkout_idempotent_replay
    (s : St) (req : CreateOrderReq) (ext ext2 : CreateOrderExt)
    (k : String) (aid : Nat) (addr : Address) (cart : Cart)
    (sv : Serviceability) (subtotal weight : Rat)
    (items : List (Nat × Nat × Rat)) (rzpId : String)
    (hk : req.idempotencyKey = some k)
    (hkne : k ≠ "")
    (ha : req.addressId = some aid)
    (hnew : findPaymentByKey s k = none)
    (haddr : findAddressById s aid = some addr)
    (hown : addr.userId = req.userId)
    (hcart : findCartByUser s req.userId = some cart)
    (hne : cart.cartItems.isEmpty = false)
    (hscan : scanItems s.products cart.cartItems = .ok (subtotal, weight, items))
    (hsv : ext.serviceability = .ok sv)
    (hav : sv.available = true)
    (hrz : ext.razorpay = .ok rzpId) :
    (createOrder s req ext).resp.status = 201 ∧
    (createOrder (createOrder s req ext).state req ext2).resp.status = 200 ∧
    (createOrder (createOrder s req ext).state req ext2).resp.orderId
      = (createOrder s req ext).resp.orderId ∧
    (createOrder (createOrder s req ext).state req ext2).gatewayCalled = false ∧
    (createOrder (createOrder s req ext).state req ext2).state
      = (createOrder s req ext).state ∧
    (createOrder (createOrder s req ext).state req ext2).state.products
      = (createOrder s req ext).state.products := by
  simp only [createOrder, ha, hk, jsOrKey, hkne, ite_false, if_neg, hnew,
    haddr, hown, ne_eq, not_true_eq_false, if_false, hcart, hne,
    Bool.false_eq_true, hscan, hsv, hav, if_true, hrz]
  simp [findPaymentByKey, findOrderById, hkne]

/-- Witness for C1 at the concrete demo store. -/
theorem checkout_idempotent_replay_witness :
    (createOrder demoState demoReq demoExt).resp.status = 201 ∧
    (createOrder (createOrder demoState demoReq demoExt).state demoReq
        demoExt2).resp.status = 200 ∧
    (createOrder (createOrder demoState demoReq demoExt).state demoReq
        demoExt2).resp.orderId = (createOrder demoState demoReq demoExt).resp.orderId ∧
    (createOrder (createOrder demoState demoReq demoExt).state demoReq
        demoExt2).gatewayCalled = false ∧
    (createOrder (createOrder demoState demoReq demoExt).state demoReq
        demoExt2).state = (createOrder demoState demoReq demoExt).state ∧
    (createOrder (createOrder demoState demoReq demoExt).state demoReq
        demoExt2).state.products = (createOrder demoState demoReq demoExt).state.products :=
  checkout_idempotent_replay demoState demoReq demoExt demoExt2 "k1" 1
    ⟨1, 1, "400001"⟩ ⟨1, 1, [⟨1, 2⟩]⟩ ⟨true, 50, some "BlueDart"⟩
    1400 1 [(1, 2, 700)] "rzp_1" rfl (by decide) rfl (by decide) (by decide)
    rfl (by decide) rfl
    (by simp [scanItems, demoState, demoProduct, Except.bind]; norm_num)
    rfl rfl rfl

/-- C6: during the shipping-quote step of checkout, a serviceability result
with available = false aborts with 400 leaving the store untouched (no
order, no payment, no stock change, no gateway call), while a serviceability
call that throws degrades to the fixed default shipping cost 50 and checkout
proceeds with totalAmount = subtotal + 50. -/
theorem checkout_shipping_quote
    (s : St) (req : CreateOrderReq) (k : String) (aid : Nat) (addr : Address)
    (cart : Cart) (subtotal weight : Rat) (items : List (Nat × Nat × Rat))
    (hk : req.idempotencyKey = some k)
    (hkne : k ≠ "")
    (ha : req.addressId = some aid)
    (hnew : findPaymentByKey s k = none)
    (haddr : findAddressById s aid = some addr)
    (hown : addr.userId = req.userId)
    (hcart : findCartByUser s req.userId = some cart)
    (hne : cart.cartItems.isEmpty = false)
    (hscan : scanItems s.products cart.cartItems
      = .ok (subtotal, weight, items)) :
    (∀ ext sv, ext.serviceability = .ok sv → sv.available = false →
        createOrder s req ext
          = ⟨⟨400, none, none, none, none, none⟩, s, false⟩) ∧
    (∀ ext rzpId, ext.serviceability = .error () → ext.razorpay = .ok rzpId →
        (createOrder s req ext).resp.status = 201 ∧
        (createOrder s req ext).resp.shippingCost = some 50 ∧
        (createOrder s req ext).resp.totalAmount = some (subtotal + 50) ∧
        (findOrderById (createOrder s req ext).state ext.freshOrderId).map
          Order.totalAmount = some (subtotal + 50)) := by
  constructor
  · intro ext sv hsv hav
    simp [createOrder, ha, hk, jsOrKey, hkne, hnew, haddr, hown, hcart, hne,
      hscan, hsv, hav]
  · intro ext rzpId hsv hrz
    simp [createOrder, ha, hk, jsOrKey, hkne, hnew, haddr, hown, hcart, hne,
      hscan, hsv, hrz, findOrderById]

/-- Witness for C6 at the concrete demo store: unavailability gives a 400
with nothing persisted, a thrown quote gives a 201 with shipping cost 50 and
total 1450 = 1400 + 50. -/
theorem checkout_shipping_quote_witness :
    createOrder demoState demoReq demoExtUnavailable
      = ⟨⟨400, none, none, none, none, none⟩, demoState, false⟩ ∧
    (createOrder demoState demoReq demoExtQuoteError).resp.status = 201 ∧
    (createOrder demoState demoReq demoExtQuoteError).resp.shippingCost
      = some 50 ∧
    (createOrder demoState demoReq demoExtQuoteError).resp.totalAmount
      = some 1450 := by
  have h := checkout_shipping_quote demoState demoReq "k1" 1
    ⟨1, 1, "400001"⟩ ⟨1, 1, [⟨1, 2⟩]⟩ 1400 1 [(1, 2, 700)]
    rfl (by decide) rfl (by decide) (by decide) rfl (by decide) rfl
    (by simp [scanItems, demoState, demoProduct]; norm_num)
  have h2 := h.2 demoExtQuoteError "rzp_4" rfl rfl
  refine ⟨h.1 demoExtUnavailable ⟨false, 0, none⟩ rfl rfl, h2.1, h2.2.1, ?_⟩
  rw [h2.2.2.1]; norm_num

/-- C10 counterexample: after a first keyless checkout succeeds with 201,
an identical second keyless invocation does NOT create a second order, a
second payment intent, or a second stock decrement — checkout emptied the
cart, so the second call fails with 400 and changes nothing. -/
theorem checkout_keyless_twice_counterexample :
    (createOrder demoState demoReqNoKey demoExt).resp.status = 201 ∧
    (createOrder (createOrder demoState demoReqNoKey demoExt).state
        demoReqNoKey demoExt2).resp.status = 400 ∧
    (createOrder (createOrder demoState demoReqNoKey demoExt).state
        demoReqNoKey demoExt2).state
      = (createOrder demoState demoReqNoKey demoExt).state ∧
    (createOrder (createOrder demoState demoReqNoKey demoExt).state
        demoReqNoKey demoExt2).gatewayCalled = false := by
  have hg : genKey 1 0 "u0" = "1_0_u0" := rfl
  have hg2 : genKey 1 1 "u1" = "1_1_u1" := rfl
  have h1 : createOrder demoState demoReqNoKey demoExt
      = ⟨⟨201, some 10, some "rzp_1", some 1400, some 50, some 1450⟩,
         demoStateAfter, true⟩ := by
    simp [createOrder, demoState, demoReqNoKey, demoExt, demoProduct, jsOrKey,
      findPaymentByKey, findAddressById, findCartByUser, scanItems,
      List.find?, decProducts, demoStateAfter, hg]
    norm_num
  rw [h1]
  simp [createOrder, demoStateAfter, hg2, jsOrKey, findPaymentByKey,
    findAddressById, findCartByUser, List.find?, demoReqNoKey, demoExt2]

/-- A checkout run that reaches the cart check with an empty cart answers
400 and changes nothing. -/
theorem createOrder_emptycart_400
    (s : St) (req : CreateOrderReq) (ext : CreateOrderExt)
    (aid : Nat) (addr : Address) (cart : Cart)
    (ha : req.addressId = some aid)
    (hnone : findPaymentByKey s
      (jsOrKey req.idempotencyKey (genKey req.userId ext.nowMs ext.uuid))
      = none)
    (haddr : findAddressById s aid = some addr)
    (hown : addr.userId = req.userId)
    (hcart : findCartByUser s req.userId = some cart)
    (he : cart.cartItems.isEmpty = true) :
    createOrder s req ext = ⟨⟨400, none, none, none, none, none⟩, s, false⟩ := by
  simp [createOrder, ha, hnone, haddr, hown, hcart, he]

/-- C10 amended: a keyless checkout stores its payment under the generated
key userId_now_uuid and a second identical keyless invocation with a fresh
generated key is never answered as a 200 replay — but neither does it create
a second order: the first call emptied the cart, so the second call answers
400 with the store unchanged (stock decremented exactly once) and without
calling the payment gateway. -/
theorem checkout_keyless_no_replay
    (s : St) (req : CreateOrderReq) (ext ext2 : CreateOrderExt)
    (aid : Nat) (addr : Address) (cart : Cart) (sv : Serviceability)
    (subtotal weight : Rat) (items : List (Nat × Nat × Rat)) (rzpId : String)
    (hk : req.idempotencyKey = none)
    (ha : req.addressId = some aid)
    (hnew : findPaymentByKey s (genKey req.userId ext.nowMs ext.uuid) = none)
    (haddr : findAddressById s aid = some addr)
    (hown : addr.userId = req.userId)
    (hcart : findCartByUser s req.userId = some cart)
    (hne : cart.cartItems.isEmpty = false)
    (hscan : scanItems s.products cart.cartItems
      = .ok (subtotal, weight, items))
    (hsv : ext.serviceability = .ok sv) (hav : sv.available = true)
    (hrz : ext.razorpay = .ok rzpId)
    (hfresh : findPaymentByKey (createOrder s req ext).state
        (genKey req.userId ext2.nowMs ext2.uuid) = none) :
    (createOrder s req ext).resp.status = 201 ∧
    (findPaymentByKey (createOrder s req ext).state
        (genKey req.userId ext.nowMs ext.uuid)).isSome = true ∧
    createOrder (createOrder s req ext).state req ext2
      = ⟨⟨400, none, none, none, none, none⟩,
         (createOrder s req ext).state, false⟩ := by
  have h1 : createOrder s req ext
      = ⟨⟨201, some ext.freshOrderId, some rzpId, some subtotal,
          some sv.shippingCost, some (subtotal + sv.shippingCost)⟩,
         { s with
            orders := ⟨ext.freshOrderId, req.userId, subtotal, sv.shippingCost,
              subtotal + sv.shippingCost, .PENDING⟩ :: s.orders
            payments := ⟨ext.freshPaymentId, ext.freshOrderId, rzpId, none,
              none, genKey req.userId ext.nowMs ext.uuid,
              subtotal + sv.shippingCost, 0, .PENDING⟩ :: s.payments
            orderItems := (items.map (fun x =>
              OrderItemRec.mk ext.freshOrderId x.1 x.2.1 x.2.2)) ++ s.orderItems
            products := decProducts s.products cart.cartItems
            carts := s.carts.map (fun c =>
              if c.id == cart.id then { c with cartItems := [] } else c) },
         true⟩ := by
    simp [createOrder, ha, hk, jsOrKey, hnew, haddr, hown, hcart, hne, hscan,
      hsv, hav, hrz]
  have hnone2 : findPaymentByKey (createOrder s req ext).state
      (jsOrKey req.idempotencyKey (genKey req.userId ext2.nowMs ext2.uuid))
      = none := by
    rw [hk]; simpa [jsOrKey] using hfresh
  have haddr2 : findAddressById (createOrder s req ext).state aid
      = some addr := by
    rw [h1]; exact haddr
  have hcart2 : findCartByUser (createOrder s req ext).state req.userId
      = some { cart with cartItems := [] } := by
    rw [h1]
    show (s.carts.map (fun c =>
        if c.id == cart.id then { c with cartItems := [] } else c)).find?
        (fun c => c.userId == req.userId) = some { cart with cartItems := [] }
    rw [List.find?_map]
    have hcomp : ((fun c : Cart => c.userId == req.userId) ∘ (fun c =>
        if c.id == cart.id then { c with cartItems := [] } else c))
        = (fun c : Cart => c.userId == req.userId) := by
      funext c
      by_cases hc : c.id = cart.id <;> simp [hc]
    rw [hcomp]
    have hc' : s.carts.find? (fun c => c.userId == req.userId) = some cart :=
      hcart
    rw [hc']
    simp
  refine ⟨by simp [h1], by rw [h1]; simp [findPaymentByKey], ?_⟩
  exact createOrder_emptycart_400 _ req ext2 aid addr
    { cart with cartItems := [] } ha hnone2 haddr2 hown hcart2 rfl

/-- Witness for the amended C10 at the concrete demo store. -/
theorem checkout_keyless_no_replay_witness :
    (createOrder demoState demoReqNoKey demoExt).resp.status = 201 ∧
    (findPaymentByKey (createOrder demoState demoReqNoKey demoExt).state
        (genKey 1 0 "u0")).isSome = true ∧
    createOrder (createOrder demoState demoReqNoKey demoExt).state
        demoReqNoKey demoExt2
      = ⟨⟨400, none, none, none, none, none⟩,
         (createOrder demoState demoReqNoKey demoExt).state, false⟩ :=
  checkout_keyless_no_replay demoState demoReqNoKey demoExt demoExt2 1
    ⟨1, 1, "400001"⟩ ⟨1, 1, [⟨1, 2⟩]⟩ ⟨true, 50, some "BlueDart"⟩
    1400 1 [(1, 2, 700)] "rzp_1" rfl rfl rfl (by decide) rfl (by decide) rfl
    (by simp [scanItems, demoState, demoProduct]; norm_num) rfl rfl rfl
    (by
      have hg : genKey 1 0 "u0" = "1_0_u0" := rfl
      have hg2 : genKey 1 1 "u1" = "1_1_u1" := rfl
      simp [createOrder, demoState, demoReqNoKey, demoExt, demoExt2, jsOrKey,
        demoProduct, findPaymentByKey, findAddressById, findCartByUser,
        scanItems, List.find?, decProducts, hg, hg2])

/-- Lookup by id commutes with an id-targeted update, provided the update
preserves the id. -/
theorem find?_map_update {α : Type} (idf : α → Nat) (i : Nat) (f : α → α)
    (hf : ∀ x, idf (f x) = idf x) (l : List α) :
    (l.map (fun x => if idf x == i then f x else x)).find?
        (fun x => idf x == i)
      = (l.find? (fun x => idf x == i)).map f := by
  induction l with
  | nil => simp
  | cons h t ih =>
    by_cases hh : idf h = i
    · simp [List.find?_cons, hh, hf, -List.find?_map]
    · simp [List.find?_cons, hh, -List.find?_map]
      simpa [-List.find?_map] using ih

/-- C2: a verify-payment call on an order whose payment is not yet SUCCESS,
carrying a signature different from the HMAC of
externalOrderId|externalPaymentId under the shared secret, answers 400,
flips the payment row to FAILED, and leaves every order row — in particular
the order status — unchanged. -/
theorem verifyPayment_forged_signature
    (hmac : String → String → String) (secret : String) (s : St)
    (req : VerifyReq) (ext : BookingExt) (o : Order) (p : Payment)
    (hno1 : req.razorpayPaymentId ≠ "") (hno2 : req.razorpayOrderId ≠ "")
    (hno3 : req.razorpaySignature ≠ "")
    (ho : findOrderById s req.orderId = some o)
    (hown : o.userId = req.userId)
    (hp : findPaymentByOrder s req.orderId = some p)
    (hns : p.status ≠ .SUCCESS)
    (hsig : hmac secret (req.razorpayOrderId ++ "|" ++ req.razorpayPaymentId)
      ≠ req.razorpaySignature) :
    (verifyPayment hmac secret s req ext).status = 400 ∧
    paymentStatusById (verifyPayment hmac secret s req ext).state p.id
      = some .FAILED ∧
    (verifyPayment hmac secret s req ext).state
      = { s with payments := (updatePaymentById s.payments p.id (fun q =>
          { q with razorpayPaymentId := some req.razorpayPaymentId,
                   status := .FAILED })) } ∧
    (verifyPayment hmac secret s req ext).state.orders = s.orders ∧
    orderStatusById (verifyPayment hmac secret s req ext).state req.orderId
      = orderStatusById s req.orderId := by
  have hrun : verifyPayment hmac secret s req ext
      = ⟨400, { s with payments := (updatePaymentById s.payments p.id (fun q =>
          { q with razorpayPaymentId := some req.razorpayPaymentId,
                   status := .FAILED })) }⟩ := by
    simp [verifyPayment, hno1, hno2, hno3, ho, hown, hp, hns, hsig]
  rw [hrun]
  refine ⟨rfl, ?_, rfl, rfl, rfl⟩
  have hmem : p ∈ s.payments := by
    have := List.mem_of_find?_eq_some hp
    exact this
  have hsome : (s.payments.find? (fun q => q.id == p.id)).isSome = true := by
    rw [List.find?_isSome]
    exact ⟨p, hmem, by simp⟩
  obtain ⟨q, hq⟩ := Option.isSome_iff_exists.mp hsome
  show ((updatePaymentById s.payments p.id (fun q =>
      { q with razorpayPaymentId := some req.razorpayPaymentId,
               status := .FAILED })).find?
      (fun q => q.id == p.id)).map Payment.status = some .FAILED
  rw [updatePaymentById, find?_map_update Payment.id p.id (fun q =>
      { q with razorpayPaymentId := some req.razorpayPaymentId,
               status := .FAILED }) (fun _ => rfl), hq]
  rfl

/-- Witness for C2: the demo order is PENDING, the forged signature is
rejected with 400, payment 20 turns FAILED, the order rows are untouched. -/
theorem verifyPayment_forged_signature_witness :
    (verifyPayment hmacDemo "sec" demoStateAfter demoVerifyReqForged
      demoBookExt).status = 400 ∧
    paymentStatusById (verifyPayment hmacDemo "sec" demoStateAfter
      demoVerifyReqForged demoBookExt).state 20 = some .FAILED ∧
    (verifyPayment hmacDemo "sec" demoStateAfter demoVerifyReqForged
        demoBookExt).state
      = { demoStateAfter with payments :=
          (updatePaymentById demoStateAfter.payments 20 (fun q =>
            { q with razorpayPaymentId := some "pay_1",
                     status := .FAILED })) } ∧
    (verifyPayment hmacDemo "sec" demoStateAfter demoVerifyReqForged
      demoBookExt).state.orders = demoStateAfter.orders ∧
    orderStatusById (verifyPayment hmacDemo "sec" demoStateAfter
        demoVerifyReqForged demoBookExt).state 10
      = orderStatusById demoStateAfter 10 :=
  verifyPayment_forged_signature hmacDemo "sec" demoStateAfter
    demoVerifyReqForged demoBookExt ⟨10, 1, 1400, 50, 1450, .PENDING⟩
    ⟨20, 10, "rzp_1", none, none, "1_0_u0", 1450, 0, .PENDING⟩
    (by decide) (by decide) (by decide) rfl rfl rfl (by decide) (by decide)

/-- C4: a verify-payment call with a valid signature answers 200 and flips
the payment to SUCCESS and the order to PAID regardless of what the
shipment-booking chain does; and whenever the booking chain fails (any of
its steps throws or Shiprocket reports failure), the store equals exactly
the pure payment/order flip — no payment, order or other row is changed by
the failed booking attempt, and the failure is not surfaced to the
caller. -/
theorem verifyPayment_booking_failure_isolated
    (hmac : String → String → String) (secret : String) (s : St)
    (req : VerifyReq) (ext : BookingExt) (o : Order) (p : Payment)
    (hno1 : req.razorpayPaymentId ≠ "") (hno2 : req.razorpayOrderId ≠ "")
    (hno3 : req.razorpaySignature ≠ "")
    (ho : findOrderById s req.orderId = some o)
    (hown : o.userId = req.userId)
    (hp : findPaymentByOrder s req.orderId = some p)
    (hns : p.status ≠ .SUCCESS)
    (hsig : hmac secret (req.razorpayOrderId ++ "|" ++ req.razorpayPaymentId)
      = req.razorpaySignature) :
    (verifyPayment hmac secret s req ext).status = 200 ∧
    (verifyPayment hmac secret s req ext).state.orders
      = updateOrderById s.orders req.orderId
          (fun q => { q with status := .PAID }) ∧
    (verifyPayment hmac secret s req ext).state.payments
      = updatePaymentById s.payments p.id (fun q =>
          { q with razorpayPaymentId := some req.razorpayPaymentId,
                   razorpaySignature := some req.razorpaySignature,
                   status := .SUCCESS }) ∧
    orderStatusById (verifyPayment hmac secret s req ext).state req.orderId
      = some .PAID ∧
    paymentStatusById (verifyPayment hmac secret s req ext).state p.id
      = some .SUCCESS ∧
    (bookShipment ext req.orderId = none →
      (verifyPayment hmac secret s req ext).state
        = (verifySuccessWrites p.id req.orderId req.razorpayPaymentId
            req.razorpaySignature).foldl applyWrite s) := by
  have hcore : (verifyPayment hmac secret s req ext).status = 200 ∧
      (verifyPayment hmac secret s req ext).state.orders
        = updateOrderById s.orders req.orderId
            (fun q => { q with status := .PAID }) ∧
      (verifyPayment hmac secret s req ext).state.payments
        = updatePaymentById s.payments p.id (fun q =>
            { q with razorpayPaymentId := some req.razorpayPaymentId,
                     razorpaySignature := some req.razorpaySignature,
                     status := .SUCCESS }) ∧
      (bookShipment ext req.orderId = none →
        (verifyPayment hmac secret s req ext).state
          = (verifySuccessWrites p.id req.orderId req.razorpayPaymentId
              req.razorpaySignature).foldl applyWrite s) := by
    rcases hbs : bookShipment ext req.orderId with _ | sd <;>
      simp [verifyPayment, hno1, hno2, hno3, ho, hown, hp, hns, hsig, hbs,
        verifySuccessWrites, applyWrite]
  obtain ⟨h1, h2, h3, h4⟩ := hcore
  refine ⟨h1, h2, h3, ?_, ?_, h4⟩
  · have ho' : s.orders.find? (fun q => q.id == req.orderId) = some o := ho
    simp only [orderStatusById, findOrderById]
    rw [h2, updateOrderById,
      find?_map_update Order.id req.orderId
        (fun q => { q with status := .PAID }) (fun _ => rfl), ho']
    rfl
  · have hmem : p ∈ s.payments := List.mem_of_find?_eq_some hp
    have hsome : (s.payments.find? (fun q => q.id == p.id)).isSome = true := by
      rw [List.find?_isSome]
      exact ⟨p, hmem, by simp⟩
    obtain ⟨q, hq⟩ := Option.isSome_iff_exists.mp hsome
    simp only [paymentStatusById]
    rw [h3, updatePaymentById,
      find?_map_update Payment.id p.id (fun q =>
        { q with razorpayPaymentId := some req.razorpayPaymentId,
                 razorpaySignature := some req.razorpaySignature,
                 status := .SUCCESS }) (fun _ => rfl), hq]
    rfl

/-- Witness for C4: the demo valid-signature verification with a throwing
Shiprocket chain still answers 200, leaves the order PAID and the payment
SUCCESS, and the store equals the pure flip. -/
theorem verifyPayment_booking_failure_isolated_witness :
    (verifyPayment hmacDemo "sec" demoStateAfter demoVerifyReqValid
      demoBookFailExt).status = 200 ∧
    (verifyPayment hmacDemo "sec" demoStateAfter demoVerifyReqValid
        demoBookFailExt).state.orders
      = updateOrderById demoStateAfter.orders 10
          (fun q => { q with status := .PAID }) ∧
    (verifyPayment hmacDemo "sec" demoStateAfter demoVerifyReqValid
        demoBookFailExt).state.payments
      = updatePaymentById demoStateAfter.payments 20 (fun q =>
          { q with razorpayPaymentId := some "pay_1",
                   razorpaySignature := some demoSig,
                   status := .SUCCESS }) ∧
    orderStatusById (verifyPayment hmacDemo "sec" demoStateAfter
        demoVerifyReqValid demoBookFailExt).state 10 = some .PAID ∧
    paymentStatusById (verifyPayment hmacDemo "sec" demoStateAfter
        demoVerifyReqValid demoBookFailExt).state 20 = some .SUCCESS ∧
    (bookShipment demoBookFailExt 10 = none →
      (verifyPayment hmacDemo "sec" demoStateAfter demoVerifyReqValid
          demoBookFailExt).state
        = (verifySuccessWrites 20 10 "pay_1" demoSig).foldl applyWrite
            demoStateAfter) :=
  verifyPayment_booking_failure_isolated hmacDemo "sec" demoStateAfter
    demoVerifyReqValid demoBookFailExt ⟨10, 1, 1400, 50, 1450, .PENDING⟩
    ⟨20, 10, "rzp_1", none, none, "1_0_u0", 1450, 0, .PENDING⟩
    (by decide) (by decide) (by decide) rfl rfl rfl (by decide) rfl

/-- C3 (code defect): the valid-signature path of `verifyPayment` issues
its two status writes as separate, non-transactional updates —
`verifySuccessWrites` in this order — so after the first write alone the
store, observable if execution stops before the second write, has
Payment.status = SUCCESS while Order.status is still PENDING.  The final
conjunct ties this write trace to `verifyPayment` itself: its
success-path state is exactly the fold of the full sequence. -/
theorem verifyPayment_flip_not_atomic :
    paymentStatusById
      (((verifySuccessWrites 20 10 "pay_1" demoSig).take 1).foldl applyWrite
        demoStateAfter) 20 = some .SUCCESS ∧
    orderStatusById
      (((verifySuccessWrites 20 10 "pay_1" demoSig).take 1).foldl applyWrite
        demoStateAfter) 10 = some .PENDING ∧
    (verifyPayment hmacDemo "sec" demoStateAfter demoVerifyReqValid
        demoBookFailExt).state
      = (verifySuccessWrites 20 10 "pay_1" demoSig).foldl applyWrite
          demoStateAfter :=
  ⟨rfl, rfl, rfl⟩

/-- C8: a user cancellation of an owned order is rejected with 400 and
changes nothing when the order is SHIPPED, DELIVERED or CANCELLED; for a
PENDING or PAID order it answers 200, the order becomes CANCELLED, and
every order item quantity is added back onto its product stock. -/
theorem cancelOrder_guard_and_restock
    (s : St) (userId orderId : Nat) (ext : CancelExt) (o : Order)
    (ho : findOrderById s orderId = some o)
    (hown : o.userId = userId) :
    ((o.status = .SHIPPED ∨ o.status = .DELIVERED ∨ o.status = .CANCELLED) →
      cancelOrder s userId orderId ext = (400, s)) ∧
    ((o.status = .PENDING ∨ o.status = .PAID) →
      (cancelOrder s userId orderId ext).1 = 200 ∧
      orderStatusById (cancelOrder s userId orderId ext).2 orderId
        = some .CANCELLED ∧
      (cancelOrder s userId orderId ext).2.products
        = incProducts s.products
            (s.orderItems.filter (fun it => it.orderId == orderId))) := by
  constructor
  · rintro (h | h | h) <;> simp [cancelOrder, ho, hown, h]
  · rintro hstat
    have hne1 : ¬o.status = .CANCELLED := by
      rcases hstat with h | h <;> simp [h]
    have hne2 : ¬o.status = .DELIVERED := by
      rcases hstat with h | h <;> simp [h]
    have hne3 : ¬o.status = .SHIPPED := by
      rcases hstat with h | h <;> simp [h]
    have hex : ∃ sdl, cancelOrder s userId orderId ext
        = (200,
           { orders := (updateOrderById s.orders orderId
               (fun q => { q with status := .CANCELLED })),
             orderItems := s.orderItems, payments := s.payments,
             products := incProducts s.products
               (s.orderItems.filter (fun it => it.orderId == orderId)),
             carts := s.carts, addresses := s.addresses,
             shippingDetails := sdl }) := by
      rcases hsd : findShippingByOrder s orderId with _ | sd
      · exact ⟨s.shippingDetails,
          by simp [cancelOrder, ho, hown, hne1, hne2, hne3, hsd]⟩
      · rcases hawb : sd.awbCode with _ | aw
        · exact ⟨s.shippingDetails,
            by simp [cancelOrder, ho, hown, hne1, hne2, hne3, hsd, hawb]⟩
        · rcases hcr : ext.cancelShipmentRes with e | u
          · exact ⟨s.shippingDetails,
              by simp [cancelOrder, ho, hown, hne1, hne2, hne3, hsd, hawb,
                hcr]⟩
          · exact ⟨(updateShippingByOrder s.shippingDetails orderId
                (fun d => { d with currentStatus := .CANCELLED })),
              by simp [cancelOrder, ho, hown, hne1, hne2, hne3, hsd, hawb,
                hcr]⟩
    obtain ⟨sdl, hval⟩ := hex
    rw [hval]
    refine ⟨rfl, ?_, rfl⟩
    have ho' : s.orders.find? (fun q => q.id == orderId) = some o := ho
    simp only [orderStatusById, findOrderById]
    rw [updateOrderById,
      find?_map_update Order.id orderId
        (fun q => { q with status := .CANCELLED }) (fun _ => rfl), ho']
    rfl

/-- Witness for C8 at the concrete stores: cancelling the SHIPPED order is
rejected with 400 and changes nothing; cancelling the PAID order with 2
reserved units of a product at stock 8 answers 200, flips the order to
CANCELLED, and leaves stock 10. -/
theorem cancelOrder_guard_and_restock_witness :
    cancelOrder demoShippedState 1 10 ⟨.ok ()⟩ = (400, demoShippedState) ∧
    (cancelOrder demoCancelState 1 10 ⟨.ok ()⟩).1 = 200 ∧
    orderStatusById (cancelOrder demoCancelState 1 10 ⟨.ok ()⟩).2 10
      = some .CANCELLED ∧
    (cancelOrder demoCancelState 1 10 ⟨.ok ()⟩).2.products
      = [⟨1, "Ashwagandha", true, 10, 700⟩] := by
  have hs := cancelOrder_guard_and_restock demoShippedState 1 10 ⟨.ok ()⟩
    ⟨10, 1, 1400, 50, 1450, .SHIPPED⟩ rfl rfl
  have hp := cancelOrder_guard_and_restock demoCancelState 1 10 ⟨.ok ()⟩
    ⟨10, 1, 1400, 50, 1450, .PAID⟩ rfl rfl
  obtain ⟨h1, h2, h3⟩ := hp.2 (Or.inr rfl)
  refine ⟨hs.1 (Or.inl rfl), h1, h2, ?_⟩
  rw [h3]
  rfl

/-- The reduce-selected courier is one of the options. -/
theorem cheapestCourier_mem :
    ∀ (rest : List Courier) (c : Courier),
      cheapestCourier c rest ∈ c :: rest := by
  intro rest
  induction rest with
  | nil => intro c; simp [cheapestCourier]
  | cons y t ih =>
    intro c
    show cheapestCourier (if c.rate < y.rate then c else y) t ∈ c :: y :: t
    rcases List.mem_cons.mp (ih (if c.rate < y.rate then c else y)) with h | h
    · rw [h]
      by_cases hc : c.rate < y.rate
      · rw [if_pos hc]; exact List.mem_cons_self _ _
      · rw [if_neg hc]
        exact List.mem_cons.mpr (Or.inr (List.mem_cons_self _ _))
    · exact List.mem_cons.mpr (Or.inr (List.mem_cons.mpr (Or.inr h)))

/-- The reduce-selected courier has minimal rate among the options. -/
theorem cheapestCourier_le :
    ∀ (rest : List Courier) (c : Courier), ∀ x ∈ c :: rest,
      (cheapestCourier c rest).rate ≤ x.rate := by
  intro rest
  induction rest with
  | nil =>
    intro c x hx
    rcases List.mem_cons.mp hx with h | h
    · subst h; simp [cheapestCourier]
    · simp at h
  | cons y t ih =>
    intro c x hx
    have hstep : cheapestCourier c (y :: t)
        = cheapestCourier (if c.rate < y.rate then c else y) t := rfl
    have hbc : (if c.rate < y.rate then c else y).rate ≤ c.rate := by
      by_cases hc : c.rate < y.rate <;> simp [hc]
      linarith [le_of_not_lt hc]
    have hby : (if c.rate < y.rate then c else y).rate ≤ y.rate := by
      by_cases hc : c.rate < y.rate <;> simp [hc]
      exact le_of_lt hc
    have hhead : (cheapestCourier (if c.rate < y.rate then c else y) t).rate
        ≤ (if c.rate < y.rate then c else y).rate :=
      ih _ _ (List.mem_cons_self _ _)
    rcases List.mem_cons.mp hx with h | h
    · subst h; rw [hstep]; exact le_trans hhead hbc
    · rcases List.mem_cons.mp h with h2 | h2
      · subst h2; rw [hstep]; exact le_trans hhead hby
      · rw [hstep]; exact ih _ _ (List.mem_cons.mpr (Or.inr h2))

/-- Among the options sharing the minimal rate, the reduce selects the LAST
one in provider-returned order. -/
theorem cheapestCourier_last :
    ∀ (rest : List Courier) (c : Courier),
      ((c :: rest).filter
          (fun x => x.rate == (cheapestCourier c rest).rate)).getLast?
        = some (cheapestCourier c rest) := by
  intro rest
  induction rest with
  | nil => intro c; simp [cheapestCourier]
  | cons y t ih =>
    intro c
    have hstep : cheapestCourier c (y :: t)
        = cheapestCourier (if c.rate < y.rate then c else y) t := rfl
    by_cases hc : c.rate < y.rate
    · -- the head survives the step; y is strictly more expensive and is
      -- dropped by the filter
      have hr : cheapestCourier c (y :: t) = cheapestCourier c t := by
        rw [hstep, if_pos hc]
      have hlt : (cheapestCourier c t).rate < y.rate :=
        lt_of_le_of_lt (cheapestCourier_le t c c (List.mem_cons_self _ _)) hc
      have hy : (y.rate == (cheapestCourier c t).rate) = false := by
        simp [beq_eq_false_iff_ne]
        exact fun h => absurd h (ne_of_gt hlt)
      rw [hr]
      have := ih c
      simp only [List.filter_cons] at this ⊢
      rw [hy] at *
      simpa using this
    · -- the step keeps y; the whole filtered tail block is non-empty so the
      -- head of the list cannot be the last match
      have hr : cheapestCourier c (y :: t) = cheapestCourier y t := by
        rw [hstep, if_neg hc]
      rw [hr]
      have htail := ih y
      have hne : ((y :: t).filter
          (fun x => x.rate == (cheapestCourier y t).rate)) ≠ [] := by
        intro hemp
        rw [hemp] at htail
        simp at htail
      have hsplit : ((c :: y :: t).filter
          (fun x => x.rate == (cheapestCourier y t).rate))
          = (if c.rate == (cheapestCourier y t).rate then [c] else [])
            ++ ((y :: t).filter
              (fun x => x.rate == (cheapestCourier y t).rate)) := by
        by_cases hcp : (c.rate == (cheapestCourier y t).rate) = true
        · simp [List.filter_cons, hcp]
        · simp at hcp
          simp [List.filter_cons, hcp]
      rw [hsplit, List.getLast?_append]
      rw [htail]
      rfl

/-- C9 counterexample: on two couriers sharing the minimum rate, the
adapter selects the SECOND (provider-returned last), not the first as the
claim states, so the reduce differs from the first-wins selection. -/
theorem checkServiceability_tie_counterexample :
    checkServiceability
        (.ok ⟨200, [⟨1, "A", 5, "2"⟩, ⟨2, "B", 5, "2"⟩]⟩)
      = .ok ⟨true, 5, some "B"⟩ ∧
    cheapestCourier ⟨1, "A", 5, "2"⟩ [⟨2, "B", 5, "2"⟩] = ⟨2, "B", 5, "2"⟩ ∧
    specFirstMinCourier ⟨1, "A", 5, "2"⟩ [⟨2, "B", 5, "2"⟩]
      = ⟨1, "A", 5, "2"⟩ ∧
    cheapestCourier ⟨1, "A", 5, "2"⟩ [⟨2, "B", 5, "2"⟩]
      ≠ specFirstMinCourier ⟨1, "A", 5, "2"⟩ [⟨2, "B", 5, "2"⟩] := by
  have h5 : ¬((5 : Rat) < 5) := lt_irrefl 5
  refine ⟨?_, ?_, ?_, ?_⟩ <;>
    simp [checkServiceability, cheapestCourier, specFirstMinCourier, h5]

/-- C9 amended: for every non-empty courier list returned with status 200,
`checkServiceability` reports available with the reduce-selected option,
which attains the minimum rate — but when several options share the
minimum, the one appearing LAST in provider-returned order is selected
(the reduce keeps `curr` on ties), not the first. -/
theorem checkServiceability_cheapest_last_min
    (r : SvcResponse) (c : Courier) (rest : List Courier)
    (h200 : r.status = 200) (hcs : r.couriers = c :: rest) :
    checkServiceability (.ok r)
      = .ok ⟨true, (cheapestCourier c rest).rate,
             some (cheapestCourier c rest).name⟩ ∧
    cheapestCourier c rest ∈ c :: rest ∧
    (∀ x ∈ c :: rest, (cheapestCourier c rest).rate ≤ x.rate) ∧
    ((c :: rest).filter
        (fun x => x.rate == (cheapestCourier c rest).rate)).getLast?
      = some (cheapestCourier c rest) := by
  refine ⟨?_, cheapestCourier_mem rest c, cheapestCourier_le rest c,
    cheapestCourier_last rest c⟩
  simp [checkServiceability, h200, hcs]

/-- Witness for the amended C9: three couriers rated 80, 60, 60 — the
selected option is the LAST 60-rated one and the reported cost is 60. -/
theorem checkServiceability_cheapest_last_min_witness :
    checkServiceability
        (.ok ⟨200, [⟨1, "A", 80, "3"⟩, ⟨2, "B", 60, "2"⟩, ⟨3, "C", 60, "4"⟩]⟩)
      = .ok ⟨true,
          (cheapestCourier ⟨1, "A", 80, "3"⟩
            [⟨2, "B", 60, "2"⟩, ⟨3, "C", 60, "4"⟩]).rate,
          some (cheapestCourier ⟨1, "A", 80, "3"⟩
            [⟨2, "B", 60, "2"⟩, ⟨3, "C", 60, "4"⟩]).name⟩ ∧
    cheapestCourier ⟨1, "A", 80, "3"⟩ [⟨2, "B", 60, "2"⟩, ⟨3, "C", 60, "4"⟩]
      = ⟨3, "C", 60, "4"⟩ := by
  have h := checkServiceability_cheapest_last_min
    ⟨200, [⟨1, "A", 80, "3"⟩, ⟨2, "B", 60, "2"⟩, ⟨3, "C", 60, "4"⟩]⟩
    ⟨1, "A", 80, "3"⟩ [⟨2, "B", 60, "2"⟩, ⟨3, "C", 60, "4"⟩] rfl rfl
  refine ⟨h.1, ?_⟩
  have h1 : ¬((80 : Rat) < 60) := by norm_num
  have h2 : ¬((60 : Rat) < 60) := lt_irrefl 60
  simp [cheapestCourier, h1, h2]

/-- C7: the webhook status mapping follows the fixed table exactly, any
unrecognized text maps to IN_TRANSIT without error, exactly one timestamped
entry is appended to the status-history log (prior entries preserved), and
the order status is written only when the second mapping defines a status —
a no-op when it equals the current one, the mapped value when it
differs. -/
theorem webhook_status_mapping :
    (mapShiprocketStatus "New" = .PENDING ∧
     mapShiprocketStatus "Pickup Scheduled" = .PROCESSING ∧
     mapShiprocketStatus "Picked Up" = .DISPATCHED ∧
     mapShiprocketStatus "Shipped" = .DISPATCHED ∧
     mapShiprocketStatus "In Transit" = .IN_TRANSIT ∧
     mapShiprocketStatus "Out For Delivery" = .OUT_FOR_DELIVERY ∧
     mapShiprocketStatus "Delivered" = .DELIVERED ∧
     mapShiprocketStatus "Cancelled" = .CANCELLED ∧
     mapShiprocketStatus "RTO Initiated" = .RTO_INITIATED ∧
     mapShiprocketStatus "RTO Delivered" = .RTO_DELIVERED ∧
     mapShiprocketStatus "Lost" = .FAILED ∧
     mapShiprocketStatus "Damaged" = .FAILED) ∧
    (∀ cs : String,
      cs ∉ (["New", "Pickup Scheduled", "Picked Up", "Shipped", "In Transit",
        "Out For Delivery", "Delivered", "Cancelled", "RTO Initiated",
        "RTO Delivered", "Lost", "Damaged"] : List String) →
      mapShiprocketStatus cs = .IN_TRANSIT) ∧
    (∀ sd ord w, (processShipmentWebhook sd ord w).1.statusHistory
        = sd.statusHistory
          ++ [⟨w.current_status, w.nowIso, w.courier_name, w.awb_code⟩]) ∧
    (∀ sd ord w,
      orderStatusMap (mapShiprocketStatus w.current_status) = none →
        (processShipmentWebhook sd ord w).2 = ord) ∧
    (∀ sd ord w,
      orderStatusMap (mapShiprocketStatus w.current_status)
          = some ord.status →
        (processShipmentWebhook sd ord w).2 = ord) ∧
    (∀ sd ord w ns,
      orderStatusMap (mapShiprocketStatus w.current_status) = some ns →
        (processShipmentWebhook sd ord w).2.status = ns) := by
  refine ⟨by decide, ?_, ?_, ?_, ?_, ?_⟩
  · intro cs h
    simp only [List.mem_cons, List.not_mem_nil, or_false] at h
    push_neg at h
    obtain ⟨h1, h2, h3, h4, h5, h6, h7, h8, h9, h10, h11, h12⟩ := h
    simp [mapShiprocketStatus, statusMapLookup, h1, h2, h3, h4, h5, h6, h7,
      h8, h9, h10, h11, h12]
  · intro sd ord w
    simp [processShipmentWebhook]
  · intro sd ord w h
    simp [processShipmentWebhook, h]
  · intro sd ord w h
    simp [processShipmentWebhook, h]
  · intro sd ord w ns h
    by_cases hv : ord.status = ns
    · simp [processShipmentWebhook, h, hv]
    · simp [processShipmentWebhook, h, hv]

/-- A list containing two distinct elements has length at least two. -/
theorem two_le_length_of_two_mem {α : Type} {l : List α} {a b : α}
    (ha : a ∈ l) (hb : b ∈ l) (hne : a ≠ b) : 2 ≤ l.length := by
  rcases l with _ | ⟨x, _ | ⟨y, t⟩⟩
  · simp at ha
  · simp at ha hb
    subst ha; subst hb
    exact absurd rfl hne
  · simp only [List.length_cons]
    omega

/-- A conditional map that removes the filtered property from every element
it touches cannot increase the filtered length. -/
theorem filter_length_map_le {α : Type} (p c : α → Bool) (f : α → α)
    (hf : ∀ y, c y = true → p (f y) = false) :
    ∀ l : List α,
      ((l.map (fun y => if c y then f y else y)).filter p).length
        ≤ (l.filter p).length := by
  intro l
  induction l with
  | nil => simp
  | cons y t ih =>
    simp only [List.map_cons, List.filter_cons]
    by_cases hc : c y = true
    · rw [if_pos hc, hf y hc]
      simp only [Bool.false_eq_true, if_false]
      by_cases hp : p y = true
      · rw [hp]
        simp only [if_true, List.length_cons]
        exact le_trans ih (Nat.le_succ _)
      · simp only [Bool.not_eq_true] at hp
        rw [hp]
        simp only [Bool.false_eq_true, if_false]
        exact ih
    · simp only [Bool.not_eq_true] at hc
      rw [hc]
      simp only [Bool.false_eq_true, if_false]
      by_cases hp : p y = true
      · rw [hp]
        simp only [if_true, List.length_cons]
        exact Nat.succ_le_succ ih
      · simp only [Bool.not_eq_true] at hp
        rw [hp]
        simp only [Bool.false_eq_true, if_false]
        exact ih

/-- Updating refund rows so that every touched row leaves REQUESTED, while
the payment is untouched, preserves the refund invariant. -/
theorem goodRSt_map_away_requested (s : RSt) (c : RRefund → Bool)
    (f : RRefund → RRefund)
    (hf : ∀ y, c y = true → (f y).status ≠ .REQUESTED)
    (h : goodRSt s) :
    goodRSt { s with refunds := s.refunds.map (fun y =>
      if c y then f y else y) } := by
  obtain ⟨hle, hreq, hone⟩ := h
  refine ⟨hle, ?_, ?_⟩
  · intro x hx hst
    obtain ⟨y, hy, hxy⟩ := List.mem_map.mp hx
    by_cases hc : c y = true
    · rw [if_pos hc] at hxy
      subst hxy
      exact absurd hst (hf y hc)
    · simp [hc] at hxy
      subst hxy
      exact hreq y hy hst
  · refine le_trans (filter_length_map_le _ c f ?_ s.refunds) hone
    intro y hc
    have := hf y hc
    simp only [beq_eq_false_iff_ne, ne_eq]
    exact this

/-- One refund-workflow operation preserves the refund invariant. -/
theorem goodRSt_rstep (s : RSt) (op : ROp) (h : goodRSt s) :
    goodRSt (rstep s op) := by
  obtain ⟨hle, hreq, hone⟩ := h
  cases op with
  | request n =>
    show goodRSt (requestRefund s n).2
    unfold requestRefund
    by_cases h1 : s.payment.status ≠ .SUCCESS
    · rw [if_pos h1]
      exact ⟨hle, hreq, hone⟩
    · rw [if_neg h1]
      rcases hfind : s.refunds.find? (fun r => isActiveRefund r.status)
        with _ | q
      · by_cases h2 : s.payment.amount - s.payment.amountRefunded ≤ 0
        · simp only [hfind, if_pos h2]
          exact ⟨hle, hreq, hone⟩
        · have hnone : ∀ x ∈ s.refunds, isActiveRefund x.status = false := by
            intro x hx
            have := List.find?_eq_none.mp hfind x hx
            simpa using this
          have hempty : s.refunds.filter
              (fun r => r.status == .REQUESTED) = [] := by
            rw [List.filter_eq_nil_iff]
            intro x hx hcon
            have hx2 : x.status = .REQUESTED := by simpa using hcon
            have := hnone x hx
            rw [hx2] at this
            simp [isActiveRefund] at this
          simp only [hfind, if_neg h2]
          refine ⟨hle, ?_, ?_⟩
          · intro x hx hst
            rcases List.mem_cons.mp hx with h3 | h3
            · subst h3
              exact ⟨rfl, not_le.mp h2⟩
            · have := hnone x h3
              rw [hst] at this
              simp [isActiveRefund] at this
          · simp [List.filter_cons, hempty]
      · simp only [hfind]
        exact ⟨hle, hreq, hone⟩
  | approve i gw =>
    show goodRSt (approveRefund s i gw).2
    unfold approveRefund
    rcases hfind : s.refunds.find? (fun r => r.id == i) with _ | r
    · simp only [hfind]
      exact ⟨hle, hreq, hone⟩
    · by_cases h1 : r.status ≠ .REQUESTED
      · simp only [hfind, if_pos h1]
        exact ⟨hle, hreq, hone⟩
      · by_cases h2 : s.payment.razorpayPaymentId = none
        · simp only [hfind, if_neg h1, if_pos h2]
          exact ⟨hle, hreq, hone⟩
        · rcases gw with e | rzid
          · simp only [hfind, if_neg h1, if_neg h2]
            show goodRSt { s with refunds := (updateRefundById s.refunds i
              (fun q => { q with status := .FAILED })) }
            simp only [updateRefundById]
            exact goodRSt_map_away_requested s _ _
              (by intro y hy; simp) ⟨hle, hreq, hone⟩
          · have hreqr : r.status = .REQUESTED := not_not.mp h1
            have hmem : r ∈ s.refunds := List.mem_of_find?_eq_some hfind
            have hid : r.id = i := by
              have := List.find?_some hfind
              simpa using this
            obtain ⟨hamt, hpos⟩ := hreq r hmem hreqr
            simp only [hfind, if_neg h1, if_neg h2]
            refine ⟨?_, ?_, ?_⟩
            · show s.payment.amountRefunded + r.amount ≤ s.payment.amount
              rw [hamt]
              linarith
            · intro x hx hst
              exfalso
              simp only [updateRefundById] at hx
              obtain ⟨y, hy, hxy⟩ := List.mem_map.mp hx
              by_cases hc : (y.id == i) = true
              · rw [if_pos hc] at hxy
                subst hxy
                simp at hst
              · simp [hc] at hxy
                subst hxy
                have hcne : y.id ≠ i := by simpa using hc
                have hyne : y ≠ r := by
                  intro hcon
                  rw [hcon, hid] at hcne
                  exact hcne rfl
                have hy1 : y ∈ s.refunds.filter
                    (fun q => q.status == .REQUESTED) :=
                  List.mem_filter.mpr ⟨hy, by simp [hst]⟩
                have hy2 : r ∈ s.refunds.filter
                    (fun q => q.status == .REQUESTED) :=
                  List.mem_filter.mpr ⟨hmem, by simp [hreqr]⟩
                have := two_le_length_of_two_mem hy1 hy2 hyne
                omega
            · show ((updateRefundById s.refunds i
                  (fun q => { q with status := .PROCESSING, razorpayRefundId := some rzid })).filter
                  (fun q => q.status == .REQUESTED)).length ≤ 1
              simp only [updateRefundById]
              refine le_trans (filter_length_map_le _ _ _ ?_ s.refunds) hone
              intro y hy
              simp
  | reject i note =>
    show goodRSt (rejectRefund s i note).2
    unfold rejectRefund
    by_cases hn : note = ""
    · rw [if_pos hn]
      exact ⟨hle, hreq, hone⟩
    · rw [if_neg hn]
      rcases hfind : s.refunds.find? (fun r => r.id == i) with _ | r
      · simp only [hfind]
        exact ⟨hle, hreq, hone⟩
      · by_cases h1 : r.status ≠ .REQUESTED
        · simp only [hfind, if_pos h1]
          exact ⟨hle, hreq, hone⟩
        · simp only [hfind, if_neg h1]
          show goodRSt { s with refunds := (updateRefundById s.refunds i
            (fun q => { q with status := .REJECTED })) }
          simp only [updateRefundById]
          exact goodRSt_map_away_requested s _ _
            (by intro y hy; simp) ⟨hle, hreq, hone⟩
  | created rzid =>
    show goodRSt (webhookRefundCreated s rzid)
    unfold webhookRefundCreated
    exact goodRSt_map_away_requested s _ _
      (by intro y hy; simp) ⟨hle, hreq, hone⟩
  | processed rzid =>
    show goodRSt (webhookRefundProcessed s rzid)
    unfold webhookRefundProcessed
    exact goodRSt_map_away_requested s _ _
      (by intro y hy; simp) ⟨hle, hreq, hone⟩
  | poll i b =>
    show goodRSt (pollRefundStatus s i b)
    unfold pollRefundStatus
    rcases hfind : s.refunds.find? (fun r => r.id == i) with _ | r
    · simp only [hfind]
      exact ⟨hle, hreq, hone⟩
    · rcases hrz : r.razorpayRefundId with _ | z
      · simp only [hfind, hrz]
        exact ⟨hle, hreq, hone⟩
      · by_cases hcond : b = true ∧ r.status ≠ .COMPLETED
        · simp only [hfind, hrz, if_pos hcond]
          show goodRSt { s with refunds := (updateRefundById s.refunds i
            (fun q => { q with status := .COMPLETED })) }
          simp only [updateRefundById]
          exact goodRSt_map_away_requested s _ _
            (by intro y hy; simp) ⟨hle, hreq, hone⟩
        · simp only [hfind, hrz, if_neg hcond]
          exact ⟨hle, hreq, hone⟩

/-- The refund invariant holds after any sequence of operations. -/
theorem goodRSt_runOps (ops : List ROp) :
    ∀ s : RSt, goodRSt s → goodRSt (runOps s ops) := by
  induction ops with
  | nil => intro s h; exact h
  | cons op rest ih =>
    intro s h
    exact ih (rstep s op) (goodRSt_rstep s op h)

/-- A refund request made while some refund is in a non-terminal status is
rejected with 400 and creates no refund. -/
theorem requestRefund_conflict (s : RSt) (newId : Nat) (r : RRefund)
    (hr : r ∈ s.refunds) (ha : isActiveRefund r.status = true) :
    requestRefund s newId = (400, s) := by
  unfold requestRefund
  by_cases hps : s.payment.status ≠ .SUCCESS
  · simp [hps]
  · have hsome : (s.refunds.find?
        (fun r => isActiveRefund r.status)).isSome = true :=
      List.find?_isSome.mpr ⟨r, hr, ha⟩
    obtain ⟨q, hq⟩ := Option.isSome_iff_exists.mp hsome
    simp [hps, hq]

/-- C5: across every sequence of refund-workflow operations (request,
approve, reject, webhook reconciliation, status poll) from an
invariant-satisfying initial state, Payment.amountRefunded never exceeds
Payment.amount; and whenever some refund of the order is in a non-terminal
status, a further refund request is rejected with 400 and creates no new
Refund row. -/
theorem refund_conservation_and_conflict
    (s0 : RSt) (ops : List ROp) (h0 : goodRSt s0) :
    (runOps s0 ops).payment.amountRefunded
      ≤ (runOps s0 ops).payment.amount ∧
    (∀ newId r, r ∈ (runOps s0 ops).refunds →
      isActiveRefund r.status = true →
      requestRefund (runOps s0 ops) newId = (400, runOps s0 ops)) := by
  have h := goodRSt_runOps ops s0 h0
  exact ⟨h.1, fun newId r hr ha => requestRefund_conflict _ newId r hr ha⟩

/-- Demo refund-workflow trace: request refund 1, approve it (the gateway
grants external refund 99), then attempt a second request. -/
def demoROps : List ROp := [.request 1, .approve 1 (.ok 99), .request 2]

/-- Witness for C5 at the concrete paid order: after request and approve
the refunded amount stays within the payment amount, and a second request
while refund 1 is REQUESTED is answered 400 with the state unchanged. -/
theorem refund_conservation_and_conflict_witness :
    goodRSt demoRSt ∧
    (runOps demoRSt demoROps).payment.amountRefunded
      ≤ (runOps demoRSt demoROps).payment.amount ∧
    requestRefund (runOps demoRSt [.request 1]) 2
      = (400, runOps demoRSt [.request 1]) := by
  have h0 : goodRSt demoRSt :=
    ⟨by norm_num [demoRSt], by simp [demoRSt], by simp [demoRSt]⟩
  have h1 := refund_conservation_and_conflict demoRSt demoROps h0
  have h2 := refund_conservation_and_conflict demoRSt [ROp.request 1] h0
  refine ⟨h0, h1.1, ?_⟩
  have hrun : runOps demoRSt [ROp.request 1]
      = { demoRSt with refunds := [⟨1, 1450, .REQUESTED, none⟩] } := by
    norm_num [runOps, rstep, requestRefund, demoRSt, List.foldl]
  refine h2.2 2 ⟨1, 1450, .REQUESTED, none⟩ ?_ ?_
  · rw [hrun]
    simp
  · simp [isActiveRefund]

end Vedayura
